import Mathlib

/-!
A shallow embedding of the `JournalCalendar` widget from
`src/static/js/components/calendar.js`, together with the pieces of the
ECMAScript `Date` builtin the widget relies on (month/day normalisation,
weekday and days-in-month arithmetic, decimal string conversion).
-/

/-- Gregorian leap-year rule, as in ECMA-262 `DaysInYear`. -/
def isLeapYear (y : Int) : Bool :=
  (y % 4 == 0 && !(y % 100 == 0)) || y % 400 == 0

/-- Length of the (0-based) month `m` of a year with leap flag `leap`
(ECMA-262 month lengths).  Callers only pass `m ∈ [0, 11]`. -/
def monthLen (leap : Bool) (m : Int) : Int :=
  if m = 0 then 31
  else if m = 1 then (if leap then 29 else 28)
  else if m = 2 then 31
  else if m = 3 then 30
  else if m = 4 then 31
  else if m = 5 then 30
  else if m = 6 then 31
  else if m = 7 then 31
  else if m = 8 then 30
  else if m = 9 then 31
  else if m = 10 then 30
  else 31

/-- A JavaScript `Date`, reduced to the calendar-day triple the widget
reads through `getFullYear` / `getMonth` (0-based) / `getDate`. -/
structure JSDate where
  year : Int
  month : Int
  day : Int
  deriving DecidableEq, Repr

/-- Day-of-month normalisation by calendar carrying: brings `d` into
`[1, monthLen]`, borrowing from / carrying into adjacent months.  The
fuel argument bounds the number of month steps; `normDate` always
supplies enough for the inputs the widget produces. -/
def normDayAux : Nat → Int → Int → Int → JSDate
  | 0, y, m, d => ⟨y, m, d⟩
  | fuel + 1, y, m, d =>
    if d < 1 then
      let py := if m = 0 then y - 1 else y
      let pm := if m = 0 then (11 : Int) else m - 1
      normDayAux fuel py pm (d + monthLen (isLeapYear py) pm)
    else if monthLen (isLeapYear y) m < d then
      let ny := if m = 11 then y + 1 else y
      let nm := if m = 11 then (0 : Int) else m + 1
      normDayAux fuel ny nm (d - monthLen (isLeapYear y) m)
    else ⟨y, m, d⟩

/-- ECMAScript `MakeDay`-style normalisation of a `(year, month, day)`
triple, as performed by `new Date(year, month, day)`: the month is
brought into `[0, 11]` with year carry (floor division — Lean's `Int`
division is Euclidean, which agrees with ECMA's floor division for the
positive divisor 12), then the day is brought into range by calendar
carrying. -/
def normDate (y m d : Int) : JSDate :=
  let t := y * 12 + m
  normDayAux (d.natAbs + 2) (t / 12) (t % 12) d

/-- Cumulative number of days strictly before (0-based) month `m` in a
year with leap flag `leap` (ECMA-262 `DayWithinYear` table). -/
def daysBeforeMonth (leap : Bool) (m : Int) : Int :=
  (if m = 0 then 0
   else if m = 1 then 31
   else if m = 2 then 59
   else if m = 3 then 90
   else if m = 4 then 120
   else if m = 5 then 151
   else if m = 6 then 181
   else if m = 7 then 212
   else if m = 8 then 243
   else if m = 9 then 273
   else if m = 10 then 304
   else 334) + (if leap && 2 ≤ m then 1 else 0)

/-- ECMA-262 `DayFromYear`: days from the epoch 1970-01-01 to January 1
of year `y`. -/
def dayFromYear (y : Int) : Int :=
  365 * (y - 1970) + (y - 1969) / 4 - (y - 1901) / 100 + (y - 1601) / 400

/-- Day number of a normalised date counted from the epoch 1970-01-01
(ECMA-262 `Day(t)` of the date's time value). -/
def epochDay (dt : JSDate) : Int :=
  dayFromYear dt.year + daysBeforeMonth (isLeapYear dt.year) dt.month + dt.day - 1

/-- ECMA-262 `WeekDay`: 0 = Sunday .. 6 = Saturday; 1970-01-01 was a
Thursday (4).  Models JavaScript `Date.prototype.getDay`. -/
def getDay (dt : JSDate) : Int :=
  (epochDay dt + 4) % 7

/-- JavaScript `Date.prototype.setMonth`: keeps year and day-of-month,
replaces the month and renormalises (ECMA-262 `MakeDay` on the result). -/
def setMonth (dt : JSDate) (m : Int) : JSDate :=
  normDate dt.year m dt.day

/-- Digits accumulator for decimal printing; the fuel bounds the digit
count. -/
def natDigitsAux : Nat → Nat → List Char → List Char
  | 0, _, acc => acc
  | f + 1, n, acc =>
    if n < 10 then Nat.digitChar n :: acc
    else natDigitsAux f (n / 10) (Nat.digitChar (n % 10) :: acc)

/-- Decimal digit list of a natural number (no sign, no padding). -/
def natDigits (n : Nat) : List Char :=
  natDigitsAux (n + 1) n []

/-- JavaScript number-to-string conversion restricted to integers:
decimal digits, with a leading minus sign when negative. -/
def jsIntToString (n : Int) : String :=
  if n < 0 then ⟨'-' :: natDigits (-n).toNat⟩ else ⟨natDigits n.toNat⟩

/-- Model of `String(x).padStart(2, '0')` as used for the month and day
fields of a date identifier. -/
def pad2 (n : Int) : String :=
  let s := jsIntToString n
  if s.length < 2 then "0" ++ s else s

/-- The `YYYY-MM-DD` identifier the widget builds for a day cell
(line 81 of `calendar.js`): year, dash, `month+1` padded, dash, day
padded. -/
def dateId (year month day : Int) : String :=
  jsIntToString year ++ "-" ++ pad2 (month + 1) ++ "-" ++ pad2 day

/-- One cell of the rendered `calendar-days` grid: either a leading
filler (`calendar-day other-month`, no `data-date` attribute, no click
listener) or a day cell with its `data-date` string, displayed day
number and the `today` / `has-entry` class flags. -/
inductive Cell where
  | filler : Cell
  | day (dateStr : String) (num : Int) (isToday : Bool) (hasEntry : Bool) : Cell
  deriving DecidableEq, Repr

/-- The grid produced by `JournalCalendar.render` (lines 49-97 of
`calendar.js`): leading filler cells for the weekday of day 1, then one
cell per day of the displayed month.  `today` is the ambient
`new Date()` read inside `render`. -/
def renderGrid (year month : Int) (entryDates : List String)
    (highlightToday : Bool) (today : JSDate) : List Cell :=
  let firstDay := getDay (normDate year month 1)
  let daysInMonth := (normDate year (month + 1) 0).day
  List.replicate firstDay.toNat Cell.filler ++
    (List.range daysInMonth.toNat).map (fun (i : Nat) =>
      let day : Int := (i : Int) + 1
      let dateStr := dateId year month day
      let isToday := highlightToday && day == today.day &&
        month == today.month && year == today.year
      let hasEntry := entryDates.contains dateStr
      Cell.day dateStr day isToday hasEntry)

/-- The one JavaScript runtime error the embedding needs: the
`TypeError` raised by a property access or method call on `undefined` /
`null`. -/
inductive JSError where
  | typeError : JSError
  deriving DecidableEq, Repr

/-- JavaScript values the widget hands back to the host: the raw `Date`
object passed to `onMonthChange` (line 118) and the `{ year, month }`
record returned by `getCurrentMonth` (lines 161-164). -/
inductive JSVal where
  | dateObj (d : JSDate) : JSVal
  | yearMonthObj (year month : Int) : JSVal
  deriving DecidableEq, Repr

/-- The raw `options` argument of the constructor: optional fields as
supplied by the host page, with the two callbacks abstracted to whether
a function was supplied. -/
structure RawOptions where
  entryDates : Option (List String) := none
  onDateSelect : Bool := false
  onMonthChange : Bool := false
  highlightToday : Option Bool := none
  deriving DecidableEq, Repr

/-- The normalised `this.options` record (constructor lines 19-25). -/
structure CalendarOptions where
  entryDates : List String
  onDateSelect : Bool
  onMonthChange : Bool
  highlightToday : Bool
  deriving DecidableEq, Repr

/-- Normalisation of the raw options performed at lines 19-25.  The
object literal computes defaults and then spreads `...options` last, so
any key the host supplied wins; per field the net effect is: the
supplied value, or the stated default (`[]`, no callback, `true`). -/
def normalizeOptions (r : RawOptions) : CalendarOptions :=
  { entryDates := r.entryDates.getD []
    onDateSelect := r.onDateSelect
    onMonthChange := r.onMonthChange
    highlightToday := r.highlightToday.getD true }

/-- The mutable state of one `JournalCalendar` instance.  `options` and
`currentDate` are `none` when the constructor bailed out before
assigning them (container not resolvable), modelling those JavaScript
fields being `undefined`. -/
structure JournalCalendar where
  container : Bool
  options : Option CalendarOptions
  currentDate : Option JSDate
  selectedDate : Option String
  deriving DecidableEq, Repr

/-- The diagnostic logged through `console.error` at line 15. -/
def containerNotFoundMsg : String := "Calendar container not found"

/-- The constructor (lines 9-31), with container resolution abstracted
to the boolean `containerResolved`.  On failure it logs and returns with
`options` / `currentDate` never assigned; on success it normalises the
options, sets `currentDate` to the ambient current date (`new Date()`)
and runs `init` (render + attachEvents).  Returns the instance and the
log lines emitted. -/
def construct (containerResolved : Bool) (opts : RawOptions) (today : JSDate) :
    JournalCalendar × List String :=
  if containerResolved then
    ({ container := true
       options := some (normalizeOptions opts)
       currentDate := some today
       selectedDate := none }, [])
  else
    ({ container := false
       options := none
       currentDate := none
       selectedDate := none }, [containerNotFoundMsg])

/-- Result of `JournalCalendar.render` (lines 38-102): the grid written
into `container.innerHTML`, or the `TypeError` raised when the instance
was never initialised (`this.currentDate` read at line 39,
`this.options` at line 82, both undefined then) or when the container is
absent (line 101). -/
def JournalCalendar.render (s : JournalCalendar) (today : JSDate) :
    Except JSError (List Cell) :=
  match s.currentDate with
  | none => .error .typeError
  | some cd =>
    match s.options with
    | none => .error .typeError
    | some o =>
      if s.container then
        .ok (renderGrid cd.year cd.month o.entryDates o.highlightToday today)
      else .error .typeError

/-- Which navigation button was clicked (`data-action`, line 108). -/
inductive NavAction where
  | prev : NavAction
  | next : NavAction
  deriving DecidableEq, Repr

/-- Month delta applied by the button handler at lines 109-113. -/
def navDelta : NavAction → Int
  | .prev => -1
  | .next => 1

/-- The navigation-button click handler (lines 107-120): `setMonth(±1)`
on `currentDate`, re-render, re-attach, then invoke `onMonthChange` with
`this.currentDate` — the `Date` object itself (line 118) — when one is
configured.  Returns the new state and the values passed to
`onMonthChange`. -/
def JournalCalendar.navClick (s : JournalCalendar) (a : NavAction) (today : JSDate) :
    Except JSError (JournalCalendar × List JSVal) :=
  match s.currentDate, s.options with
  | some cd, some o =>
    let nd := setMonth cd (cd.month + navDelta a)
    let s1 := { s with currentDate := some nd }
    match s1.render today with
    | .error e => .error e
    | .ok _ => .ok (s1, if o.onMonthChange then [JSVal.dateObj nd] else [])
  | _, _ => .error .typeError

/-- The day-cell click handler (lines 124-132).  `attachEvents` binds it
only to `.calendar-day:not(.other-month)`, so a filler cell carries no
listener and clicking it does nothing.  On a day cell the handler reads
`data-date` and, when it is non-empty (truthy) and `onDateSelect` is
configured, stores it in `selectedDate` and invokes the callback with
it; otherwise it does nothing.  Returns the new state and the arguments
passed to `onDateSelect`. -/
def JournalCalendar.clickCell (s : JournalCalendar) (c : Cell) :
    JournalCalendar × List String :=
  match c with
  | .filler => (s, [])
  | .day ds _ _ _ =>
    match s.options with
    | none => (s, [])
    | some o =>
      if ds != "" && o.onDateSelect then
        ({ s with selectedDate := some ds }, [ds])
      else (s, [])

/-- `JournalCalendar.setEntryDates` (lines 139-143): overwrite
`this.options.entryDates`, then re-render and re-attach.  On an
uninitialised instance the very first statement
`this.options.entryDates = dates` raises a `TypeError` because
`this.options` is undefined. -/
def JournalCalendar.setEntryDates (s : JournalCalendar) (dates : List String)
    (today : JSDate) : Except JSError JournalCalendar :=
  match s.options with
  | none => .error .typeError
  | some o =>
    let s1 := { s with options := some { o with entryDates := dates } }
    match s1.render today with
    | .error e => .error e
    | .ok _ => .ok s1

/-- `JournalCalendar.goToMonth` (lines 150-154): assign
`new Date(year, month, 1)` to `currentDate`, then re-render and
re-attach.  No callback is invoked anywhere in its body; the empty
invocation list records that. -/
def JournalCalendar.goToMonth (s : JournalCalendar) (year month : Int)
    (today : JSDate) : Except JSError (JournalCalendar × List JSVal) :=
  let s1 := { s with currentDate := some (normDate year month 1) }
  match s1.render today with
  | .error e => .error e
  | .ok _ => .ok (s1, [])

/-- `JournalCalendar.getCurrentMonth` (lines 160-165): reads
`this.currentDate` and returns the `{ year, month }` record; on an
uninitialised instance `this.currentDate` is undefined and the method
call `getFullYear()` raises a `TypeError`. -/
def JournalCalendar.getCurrentMonth (s : JournalCalendar) :
    Except JSError JSVal :=
  match s.currentDate with
  | none => .error .typeError
  | some d => .ok (.yearMonthObj d.year d.month)

/-- Discriminator for the non-filler day cells of a grid. -/
def Cell.isDay : Cell → Bool
  | .filler => false
  | .day _ _ _ _ => true

/-- Stated from the spec's words ("the true day count of that month,
including leap-year February"): the textbook Gregorian month lengths for
(0-based) month `m` of year `y`, with February 29 exactly in leap years.
This is the refinement target the rendered grid is compared against; it
is deliberately a plain table, not the "day 0 of next month" computation
the code uses. -/
def specDaysInMonth (y m : Int) : Nat :=
  if m = 1 then (if isLeapYear y then 29 else 28)
  else if m = 3 ∨ m = 5 ∨ m = 8 ∨ m = 10 then 30
  else 31

/-- A successfully constructed widget instance displaying the month of
`cd`, with options `o` and nothing selected. -/
def sampleCal (o : CalendarOptions) (cd : JSDate) : JournalCalendar :=
  { container := true, options := some o, currentDate := some cd, selectedDate := none }

/-- Decidable check that a string is a calendar-day identifier in
canonical zero-padded `YYYY-MM-DD` shape (the glossary's format): four
decimal digits, a dash, two decimal digits, a dash, two decimal
digits. -/
def isCanonicalDayId (s : String) : Bool :=
  match s.data with
  | [y1, y2, y3, y4, h1, m1, m2, h2, d1, d2] =>
    y1.isDigit && y2.isDigit && y3.isDigit && y4.isDigit && h1 == '-' &&
      m1.isDigit && m2.isDigit && h2 == '-' && d1.isDigit && d2.isDigit
  | _ => false

/-- Options with no callbacks configured and default `highlightToday`. -/
def noCallbacks : CalendarOptions :=
  { entryDates := [], onDateSelect := false, onMonthChange := false, highlightToday := true }

/-- Options with only `onDateSelect` configured. -/
def withSelect : CalendarOptions :=
  { entryDates := [], onDateSelect := true, onMonthChange := false, highlightToday := true }

/-- Options with only `onMonthChange` configured. -/
def withMonthChange : CalendarOptions :=
  { entryDates := [], onDateSelect := false, onMonthChange := true, highlightToday := true }

/-! Helper lemmas about the date arithmetic. -/

theorem monthLen_pos (leap : Bool) (m : Int) : 1 ≤ monthLen leap m := by
  unfold monthLen
  repeat' split
  all_goals omega

theorem monthLen_le31 (leap : Bool) (m : Int) : monthLen leap m ≤ 31 := by
  unfold monthLen
  repeat' split
  all_goals omega

/-- One normalisation step on a day value already in range is the
identity. -/
theorem normDayAux_day1 (f : Nat) (y m : Int) : normDayAux (f + 1) y m 1 = ⟨y, m, 1⟩ := by
  have h := monthLen_pos (isLeapYear y) m
  rw [normDayAux]
  rw [if_neg (by omega), if_neg (by omega)]

/-- Day `0` of month `r ∈ [1, 11]` normalises to the last day of month
`r - 1` of the same year. -/
theorem normDayAux_day0 (f : Nat) (y r : Int) (h1 : 1 ≤ r) (h2 : r ≤ 11) :
    normDayAux (f + 2) y r 0 = ⟨y, r - 1, monthLen (isLeapYear y) (r - 1)⟩ := by
  have hp := monthLen_pos (isLeapYear y) (r - 1)
  have hr : ¬(r = 0) := by omega
  rw [normDayAux]
  rw [if_pos (by omega : (0:Int) < 1)]
  simp only [hr, if_false]
  rw [normDayAux]
  rw [if_neg (by omega), if_neg (by omega)]
  norm_num

/-- `new Date(y, m, 1)` normalises the month with year carry and keeps
day 1: this is the date `goToMonth` stores and the date whose weekday
drives the filler count. -/
theorem normDate_day1 (y m : Int) :
    normDate y m 1 = ⟨(y * 12 + m) / 12, (y * 12 + m) % 12, 1⟩ := by
  rw [normDate]
  exact normDayAux_day1 2 _ _

/-- The "day 0 of next month" trick: for `m ∈ [0, 11]`,
`new Date(y, m + 1, 0).getDate()` is the Gregorian length of month `m`
of year `y`. -/
theorem normDate_day0 (y m : Int) (h0 : 0 ≤ m) (h1 : m ≤ 11) :
    normDate y (m + 1) 0 = ⟨y, m, monthLen (isLeapYear y) m⟩ := by
  rcases (by omega : m ≤ 10 ∨ m = 11) with h | h
  · have hq : (y * 12 + (m + 1)) / 12 = y := by omega
    have hr : (y * 12 + (m + 1)) % 12 = m + 1 := by omega
    rw [normDate]
    simp only [hq, hr]
    have := normDayAux_day0 0 y (m + 1) (by omega) (by omega)
    simpa using this
  · subst h
    have hq : (y * 12 + (11 + 1)) / 12 = y + 1 := by omega
    have hr : (y * 12 + (11 + 1)) % 12 = 0 := by omega
    rw [normDate]
    simp only [hq, hr]
    rw [normDayAux]
    rw [if_pos (by omega : (0:Int) < 1)]
    norm_num
    rw [normDayAux]
    have hp := monthLen_pos (isLeapYear y) 11
    rw [if_neg (by omega), if_neg (by omega)]

/-! Helper lemmas about the rendered grid. -/

theorem filter_isDay_replicate (n : Nat) :
    (List.replicate n Cell.filler).filter Cell.isDay = [] := by
  induction n with
  | zero => rfl
  | succ k ih => simp [List.replicate_succ, Cell.isDay, ih]

theorem filter_not_isDay_replicate (n : Nat) :
    (List.replicate n Cell.filler).filter (fun c => !(Cell.isDay c)) =
      List.replicate n Cell.filler := by
  induction n with
  | zero => rfl
  | succ k ih => simp [List.replicate_succ, Cell.isDay, ih]

theorem filter_isDay_map (l : List Nat) (f : Nat → Cell)
    (hf : ∀ i, (f i).isDay = true) :
    (l.map f).filter Cell.isDay = l.map f := by
  rw [List.filter_eq_self.mpr]
  intro a ha
  obtain ⟨i, _, rfl⟩ := List.mem_map.mp ha
  exact hf i

theorem filter_not_isDay_map (l : List Nat) (f : Nat → Cell)
    (hf : ∀ i, (f i).isDay = true) :
    (l.map f).filter (fun c => !(Cell.isDay c)) = [] := by
  rw [List.filter_eq_nil_iff.mpr]
  intro a ha
  obtain ⟨i, _, rfl⟩ := List.mem_map.mp ha
  simp [hf i]

theorem renderGrid_day_count (year month : Int) (e : List String) (hl : Bool)
    (t : JSDate) :
    ((renderGrid year month e hl t).filter Cell.isDay).length
      = ((normDate year (month + 1) 0).day).toNat := by
  unfold renderGrid
  rw [List.filter_append, filter_isDay_replicate, filter_isDay_map]
  · simp
  · intro i
    rfl

theorem renderGrid_filler_count (year month : Int) (e : List String) (hl : Bool)
    (t : JSDate) :
    ((renderGrid year month e hl t).filter (fun c => !(Cell.isDay c))).length
      = (getDay (normDate year month 1)).toNat := by
  unfold renderGrid
  rw [List.filter_append, filter_not_isDay_replicate, filter_not_isDay_map]
  · simp
  · intro i
    rfl

theorem monthLen_toNat_eq_spec (y m : Int) (h0 : 0 ≤ m) (h1 : m ≤ 11) :
    (monthLen (isLeapYear y) m).toNat = specDaysInMonth y m := by
  interval_cases m <;> cases hL : isLeapYear y <;>
    simp [monthLen, specDaysInMonth, hL]

/-! Theorems for the spec claims. -/

/-- C3: for every valid `(year, zero-based month)` pair, the rendered
grid contains exactly as many non-filler day cells as the true Gregorian
day count of that month (leap years included), even though the code
computes the count via the "day 0 of next month" date-arithmetic trick
rather than a lookup table. -/
theorem spec_C3_day_cell_count (year month : Int) (e : List String) (hl : Bool)
    (t : JSDate) (h0 : 0 ≤ month) (h1 : month ≤ 11) :
    ((renderGrid year month e hl t).filter Cell.isDay).length
      = specDaysInMonth year month := by
  rw [renderGrid_day_count, normDate_day0 year month h0 h1]
  exact monthLen_toNat_eq_spec year month h0 h1

/-- Witness for C3 at the leap / non-leap Februaries named by the spec:
February 2024 renders 29 day cells, February 2023 renders 28. -/
theorem spec_C3_witness :
    ((0:Int) ≤ 1 ∧ (1:Int) ≤ 11)
    ∧ ((renderGrid 2024 1 [] true ⟨2026, 9, 11⟩).filter Cell.isDay).length = 29
    ∧ ((renderGrid 2023 1 [] true ⟨2026, 9, 11⟩).filter Cell.isDay).length = 28 := by
  refine ⟨⟨by norm_num, by norm_num⟩, ?_, ?_⟩
  · rw [spec_C3_day_cell_count 2024 1 [] true ⟨2026, 9, 11⟩ (by norm_num) (by norm_num)]
    decide
  · rw [spec_C3_day_cell_count 2023 1 [] true ⟨2026, 9, 11⟩ (by norm_num) (by norm_num)]
    decide

/-- C4: the rendered grid's filler-cell count equals the weekday index
(0 = Sunday .. 6 = Saturday) of day 1 of the displayed month; filler
cells are non-interactive (no listener is bound to `other-month` cells,
so clicking one changes nothing and invokes nothing; a filler also
carries no date identifier, its constructor has no field for one); the
Sunday-first indexing is anchored by 2024-01-01 being a Monday
(index 1, the spec's example). -/
theorem spec_C4_filler_count (year month : Int) (e : List String) (hl : Bool)
    (t : JSDate) :
    ((renderGrid year month e hl t).filter (fun c => !(Cell.isDay c))).length
        = (getDay (normDate year month 1)).toNat
    ∧ (∀ s : JournalCalendar, s.clickCell Cell.filler = (s, []))
    ∧ getDay (normDate 2024 0 1) = 1 := by
  refine ⟨renderGrid_filler_count year month e hl t, ?_, by decide⟩
  intro s
  rfl

/-- C9: rendering is deterministic and depends only on
`(displayedYearMonth, entryDateSet, today, highlightToday)`: two
instances whose internal dates agree on year and zero-based month (days
may differ), whose entry-date collections have the same members (order
may differ), and which share `highlightToday` — but may differ in
`selectedDate` and in which callbacks are configured — render identical
grids; and with `highlightToday = false` no day cell ever carries the
`today` flag. -/
theorem spec_C9_render_pure :
    (∀ (s1 s2 : JournalCalendar) (o1 o2 : CalendarOptions) (cd1 cd2 t : JSDate),
      s1.container = true → s2.container = true →
      s1.currentDate = some cd1 → s2.currentDate = some cd2 →
      cd1.year = cd2.year → cd1.month = cd2.month →
      s1.options = some o1 → s2.options = some o2 →
      (∀ x, x ∈ o1.entryDates ↔ x ∈ o2.entryDates) →
      o1.highlightToday = o2.highlightToday →
      s1.render t = s2.render t)
    ∧ (∀ (year month : Int) (e : List String) (t : JSDate) (ds : String)
        (n : Int) (it he : Bool),
        Cell.day ds n it he ∈ renderGrid year month e false t → it = false) := by
  constructor
  · intro s1 s2 o1 o2 cd1 cd2 t hc1 hc2 hd1 hd2 hy hm ho1 ho2 hmem hh
    have hcont : ∀ x, o1.entryDates.contains x = o2.entryDates.contains x := by
      intro x
      simp only [List.contains, List.elem_eq_mem]
      exact decide_eq_decide.mpr (hmem x)
    have hgrid : renderGrid cd1.year cd1.month o1.entryDates o1.highlightToday t
        = renderGrid cd2.year cd2.month o2.entryDates o2.highlightToday t := by
      rw [hy, hm, hh]
      simp only [renderGrid, hcont]
    unfold JournalCalendar.render
    rw [hd1, hd2, ho1, ho2, hc1, hc2]
    simp [hgrid]
  · intro year month e t ds n it he hmem
    unfold renderGrid at hmem
    rcases List.mem_append.mp hmem with h | h
    · exact absurd (List.eq_of_mem_replicate h) (by simp)
    · obtain ⟨i, _, heq⟩ := List.mem_map.mp h
      simp only [Bool.false_and] at heq
      cases heq
      rfl

/-- Witness for C9: two concrete instances displaying October 2026 whose
internal dates carry different days (11 vs 3), whose entry lists hold
the same two identifiers in opposite orders, and which differ in
`selectedDate` and configured callbacks, render identically; and with
`highlightToday = false` the day-11 cell of October 2026 (the ambient
"today") is rendered without the `today` flag. -/
theorem spec_C9_witness :
    (sampleCal { entryDates := ["2026-10-05", "2026-10-07"], onDateSelect := true,
                 onMonthChange := true, highlightToday := true }
        ⟨2026, 9, 11⟩).render ⟨2026, 9, 11⟩
      = ({ container := true,
           options := some { entryDates := ["2026-10-07", "2026-10-05"],
                             onDateSelect := false, onMonthChange := false,
                             highlightToday := true },
           currentDate := some ⟨2026, 9, 3⟩,
           selectedDate := some "2026-10-05" } : JournalCalendar).render ⟨2026, 9, 11⟩
    ∧ (false = false) := by
  constructor
  · exact spec_C9_render_pure.1 _ _ _ _ ⟨2026, 9, 11⟩ ⟨2026, 9, 3⟩ ⟨2026, 9, 11⟩
      rfl rfl rfl rfl rfl rfl rfl rfl
      (by intro x; simp only [List.mem_cons, List.not_mem_nil, or_false]; exact or_comm)
      rfl
  · exact spec_C9_render_pure.2 2026 9 [] ⟨2026, 9, 11⟩ "2026-10-11" 11 false false
      (by decide)

/-- C1 (code evaluated at the failing input): with the widget's internal
date at 2025-01-31 (displayed month January 2025), clicking the "next"
control leaves the widget displaying March 2025: `setMonth` keeps day
31, which does not exist in February, so the date normalises to
2025-03-03 and the displayed month advances by two months, not one. -/
theorem spec_C1_next_overflows_february :
    ((sampleCal noCallbacks ⟨2025, 0, 31⟩).navClick .next ⟨2025, 0, 31⟩).map
      (fun p => p.1.currentDate) = .ok (some ⟨2025, 2, 3⟩) := rfl

/-- C2 (code evaluated at the failing input): constructing with an
unresolvable container logs the diagnostic and returns without throwing,
but the resulting instance is not safely inert: `getCurrentMonth`,
`setEntryDates` and `goToMonth` all raise a `TypeError` on it, because
`this.currentDate` / `this.options` were never assigned and the
container is absent. -/
theorem spec_C2_inert_methods_throw :
    (construct false {} ⟨2025, 5, 10⟩).2 = [containerNotFoundMsg]
    ∧ ((construct false {} ⟨2025, 5, 10⟩).1).getCurrentMonth = .error .typeError
    ∧ ((construct false {} ⟨2025, 5, 10⟩).1).setEntryDates ["2024-01-15"] ⟨2025, 5, 10⟩
        = .error .typeError
    ∧ ((construct false {} ⟨2025, 5, 10⟩).1).goToMonth 2025 5 ⟨2025, 5, 10⟩
        = .error .typeError :=
  ⟨rfl, rfl, rfl, rfl⟩

/-- C7: `goToMonth` stores `new Date(year, month, 1)` — the requested
month normalised by date arithmetic (year carry for out-of-range month
values) — re-renders, and invokes no callback (the empty invocation
list); reading `getCurrentMonth` afterwards returns exactly the
normalised `{ year, month }` pair. -/
theorem spec_C7_goToMonth (s : JournalCalendar) (o : CalendarOptions)
    (year month : Int) (t : JSDate)
    (hc : s.container = true) (ho : s.options = some o) :
    s.goToMonth year month t =
      .ok ({ s with
             currentDate := some ⟨(year * 12 + month) / 12, (year * 12 + month) % 12, 1⟩ },
           [])
    ∧ ({ s with currentDate := some (normDate year month 1) } :
        JournalCalendar).getCurrentMonth =
      .ok (.yearMonthObj ((year * 12 + month) / 12) ((year * 12 + month) % 12)) := by
  constructor
  · unfold JournalCalendar.goToMonth JournalCalendar.render
    rw [normDate_day1]
    simp [ho, hc]
  · unfold JournalCalendar.getCurrentMonth
    rw [normDate_day1]

/-- Witness for C7 at the spec's example: `goToMonth(2025, 5)` displays
June 2025 (zero-based month 5), invokes nothing, and `getCurrentMonth`
then returns `{ year := 2025, month := 5 }`. -/
theorem spec_C7_witness :
    (sampleCal noCallbacks ⟨2024, 0, 20⟩).goToMonth 2025 5 ⟨2024, 0, 20⟩
      = .ok ({ sampleCal noCallbacks ⟨2024, 0, 20⟩ with
               currentDate := some ⟨2025, 5, 1⟩ }, [])
    ∧ ({ sampleCal noCallbacks ⟨2024, 0, 20⟩ with
         currentDate := some (normDate 2025 5 1) } :
        JournalCalendar).getCurrentMonth = .ok (.yearMonthObj 2025 5) :=
  spec_C7_goToMonth (sampleCal noCallbacks ⟨2024, 0, 20⟩) noCallbacks 2025 5
    ⟨2024, 0, 20⟩ rfl rfl

/-- C8: `setEntryDates` replaces the entry-date set wholesale (the
state's options keep everything else, only `entryDates` changes) and
re-renders at the currently displayed month; in the grid rendered with
the new set, a day cell carries the `has-entry` flag exactly when its
identifier is a member of that set — so strings that are not a rendered
cell's identifier (malformed dates included) mark nothing and raise
nothing. -/
theorem spec_C8_setEntryDates (s : JournalCalendar) (o : CalendarOptions)
    (cd : JSDate) (dates : List String) (t : JSDate)
    (hc : s.container = true) (ho : s.options = some o)
    (hd : s.currentDate = some cd) :
    s.setEntryDates dates t =
      .ok { s with options := some { o with entryDates := dates } }
    ∧ (∀ (ds : String) (n : Int) (it he : Bool),
        Cell.day ds n it he ∈ renderGrid cd.year cd.month dates o.highlightToday t →
        he = dates.contains ds) := by
  constructor
  · unfold JournalCalendar.setEntryDates JournalCalendar.render
    rw [ho]
    simp [hd, hc]
  · intro ds n it he hmem
    unfold renderGrid at hmem
    rcases List.mem_append.mp hmem with h | h
    · exact absurd (List.eq_of_mem_replicate h) (by simp)
    · obtain ⟨i, _, heq⟩ := List.mem_map.mp h
      cases heq
      rfl

/-- Witness for C8 at the spec's example: setting
`["2024-01-15", "not-a-date"]` and rendering January 2024 marks exactly
the day-15 cell; the malformed entry matches nothing and nothing
errors. -/
theorem spec_C8_witness :
    (sampleCal noCallbacks ⟨2024, 0, 20⟩).setEntryDates
        ["2024-01-15", "not-a-date"] ⟨2026, 9, 11⟩
      = .ok { sampleCal noCallbacks ⟨2024, 0, 20⟩ with
              options := some { noCallbacks with
                                entryDates := ["2024-01-15", "not-a-date"] } }
    ∧ (renderGrid 2024 0 ["2024-01-15", "not-a-date"] true ⟨2026, 9, 11⟩).filter
        (fun c => match c with | Cell.day _ _ _ he => he | Cell.filler => false)
        = [Cell.day "2024-01-15" 15 false true]
    ∧ true = (["2024-01-15", "not-a-date"].contains "2024-01-15") := by
  refine ⟨(spec_C8_setEntryDates (sampleCal noCallbacks ⟨2024, 0, 20⟩) noCallbacks
    ⟨2024, 0, 20⟩ ["2024-01-15", "not-a-date"] ⟨2026, 9, 11⟩ rfl rfl rfl).1,
    by decide, ?_⟩
  exact (spec_C8_setEntryDates (sampleCal noCallbacks ⟨2024, 0, 20⟩) noCallbacks
    ⟨2024, 0, 20⟩ ["2024-01-15", "not-a-date"] ⟨2026, 9, 11⟩ rfl rfl rfl).2
    "2024-01-15" 15 false true (by decide)

/-- C5 counterexample: the claim asserts the `selectedDate` update
happens "whether or not an onDateSelect callback was configured".  With
no callback configured, clicking the rendered day cell for 2024-01-15
leaves `selectedDate` unset: the handler's guard
`if (dateStr && this.options.onDateSelect)` skips the assignment. -/
theorem spec_C5_counterexample :
    Cell.day "2024-01-15" 15 false false ∈ renderGrid 2024 0 [] true ⟨2026, 9, 11⟩
    ∧ ((sampleCal noCallbacks ⟨2024, 0, 20⟩).clickCell
        (Cell.day "2024-01-15" 15 false false)).1.selectedDate ≠ some "2024-01-15" :=
  ⟨by decide, by decide⟩

/-- C5 (amended): when `onDateSelect` is configured, clicking a
non-filler day cell sets `selectedDate` to the cell's identifier and
invokes the callback exactly once with that identifier; when no callback
is configured the click does nothing (in particular `selectedDate` is
not updated); clicking a filler cell never invokes a callback and never
changes state. -/
theorem spec_C5_click (s : JournalCalendar) (o : CalendarOptions) (ds : String)
    (n : Int) (it he : Bool) (ho : s.options = some o) (hds : ds ≠ "") :
    (o.onDateSelect = true →
      s.clickCell (Cell.day ds n it he) = ({ s with selectedDate := some ds }, [ds]))
    ∧ (o.onDateSelect = false → s.clickCell (Cell.day ds n it he) = (s, []))
    ∧ s.clickCell Cell.filler = (s, []) := by
  have hbne : (ds != "") = true := by simpa using hds
  refine ⟨?_, ?_, rfl⟩
  · intro hsel
    unfold JournalCalendar.clickCell
    rw [ho]
    simp [hbne, hsel]
  · intro hsel
    unfold JournalCalendar.clickCell
    rw [ho]
    simp [hbne, hsel]

/-- Witness for C5: with `onDateSelect` configured, clicking the day
cell for 2024-01-15 stores and reports exactly that identifier. -/
theorem spec_C5_witness :
    ("2024-01-15" : String) ≠ ""
    ∧ (sampleCal withSelect ⟨2024, 0, 20⟩).clickCell
        (Cell.day "2024-01-15" 15 false false)
      = ({ sampleCal withSelect ⟨2024, 0, 20⟩ with
           selectedDate := some "2024-01-15" }, ["2024-01-15"]) := by
  refine ⟨by decide, ?_⟩
  exact (spec_C5_click (sampleCal withSelect ⟨2024, 0, 20⟩) withSelect
    "2024-01-15" 15 false false rfl (by decide)).1 rfl

/-- C6 counterexample: after navigating next from December 2024
(internal day 15), the single `onMonthChange` invocation receives the
widget's `Date` object (line 118 passes `this.currentDate` itself, day
component and all), which is not the `{ year, month }` record the
documented callback signature prescribes. -/
theorem spec_C6_counterexample :
    ((sampleCal withMonthChange ⟨2024, 11, 15⟩).navClick .next ⟨2024, 11, 15⟩).map
        (fun p => p.2) = .ok [JSVal.dateObj ⟨2025, 0, 15⟩]
    ∧ JSVal.dateObj ⟨2025, 0, 15⟩ ≠ JSVal.yearMonthObj 2025 0 :=
  ⟨rfl, by decide⟩

/-- C6 (amended): after a navigation click with `onMonthChange`
configured, the callback is invoked exactly once with the widget's
internal `Date` object for the new displayed month (not a plain
`{ year, month }` record); the object's year and zero-based month are
those of the new displayed month. -/
theorem spec_C6_onMonthChange (s : JournalCalendar) (o : CalendarOptions)
    (cd t : JSDate) (a : NavAction)
    (hc : s.container = true) (ho : s.options = some o)
    (hm : o.onMonthChange = true) (hd : s.currentDate = some cd) :
    s.navClick a t =
      .ok ({ s with currentDate := some (setMonth cd (cd.month + navDelta a)) },
        [JSVal.dateObj (setMonth cd (cd.month + navDelta a))]) := by
  unfold JournalCalendar.navClick JournalCalendar.render
  rw [hd, ho]
  simp [hc, hm]

/-- Witness for C6: navigating next from December 2024 invokes
`onMonthChange` once with the `Date` 2025-01-15 (January of the next
year, day carried along). -/
theorem spec_C6_witness :
    (sampleCal withMonthChange ⟨2024, 11, 15⟩).navClick .next ⟨2024, 11, 15⟩
      = .ok ({ sampleCal withMonthChange ⟨2024, 11, 15⟩ with
               currentDate := some ⟨2025, 0, 15⟩ }, [JSVal.dateObj ⟨2025, 0, 15⟩]) :=
  spec_C6_onMonthChange (sampleCal withMonthChange ⟨2024, 11, 15⟩) withMonthChange
    ⟨2024, 11, 15⟩ ⟨2024, 11, 15⟩ .next rfl rfl rfl rfl

/-! Helper lemmas about decimal strings, for the identifier format. -/

theorem digitChar_isDigit (k : Nat) (h : k < 10) : (Nat.digitChar k).isDigit = true := by
  interval_cases k <;> decide

theorem natDigitsAux_step_lt (f n : Nat) (acc : List Char) (hf : 1 ≤ f) (h : n < 10) :
    natDigitsAux f n acc = Nat.digitChar n :: acc := by
  obtain ⟨g, rfl⟩ : ∃ g, f = g + 1 := ⟨f - 1, by omega⟩
  rw [natDigitsAux, if_pos h]

theorem natDigitsAux_step_ge (f n : Nat) (acc : List Char) (hf : 1 ≤ f) (h : 10 ≤ n) :
    natDigitsAux f n acc
      = natDigitsAux (f - 1) (n / 10) (Nat.digitChar (n % 10) :: acc) := by
  obtain ⟨g, rfl⟩ : ∃ g, f = g + 1 := ⟨f - 1, by omega⟩
  rw [natDigitsAux, if_neg (by omega)]
  norm_num

theorem natDigits_lt10 (n : Nat) (h : n < 10) : natDigits n = [Nat.digitChar n] := by
  unfold natDigits
  exact natDigitsAux_step_lt (n + 1) n [] (by omega) h

theorem natDigits_two (n : Nat) (h1 : 10 ≤ n) (h2 : n ≤ 99) :
    natDigits n = [Nat.digitChar (n / 10), Nat.digitChar (n % 10)] := by
  unfold natDigits
  rw [natDigitsAux_step_ge (n + 1) n [] (by omega) h1,
    natDigitsAux_step_lt _ _ _ (by omega) (by omega)]

theorem natDigits_four (n : Nat) (h1 : 1000 ≤ n) (h2 : n ≤ 9999) :
    natDigits n = [Nat.digitChar (n / 10 / 10 / 10), Nat.digitChar (n / 10 / 10 % 10),
      Nat.digitChar (n / 10 % 10), Nat.digitChar (n % 10)] := by
  unfold natDigits
  rw [natDigitsAux_step_ge (n + 1) n [] (by omega) (by omega),
    natDigitsAux_step_ge _ _ _ (by omega) (by omega),
    natDigitsAux_step_ge _ _ _ (by omega) (by omega),
    natDigitsAux_step_lt _ _ _ (by omega) (by omega)]

theorem string_data_append (a b : String) : (a ++ b).data = a.data ++ b.data := by
  cases a
  cases b
  rfl

theorem pad2_two (k : Int) (h1 : 1 ≤ k) (h2 : k ≤ 99) :
    ∃ a b : Char, (pad2 k).data = [a, b] ∧ a.isDigit = true ∧ b.isDigit = true := by
  have hk0 : ¬(k < 0) := by omega
  rcases lt_or_le k 10 with h | h
  · refine ⟨'0', Nat.digitChar k.toNat, ?_, by decide, digitChar_isDigit _ (by omega)⟩
    unfold pad2 jsIntToString
    rw [if_neg hk0, natDigits_lt10 k.toNat (by omega)]
    rfl
  · refine ⟨Nat.digitChar (k.toNat / 10), Nat.digitChar (k.toNat % 10), ?_,
      digitChar_isDigit _ (by omega), digitChar_isDigit _ (by omega)⟩
    unfold pad2 jsIntToString
    rw [if_neg hk0, natDigits_two k.toNat (by omega) (by omega)]
    rfl

theorem dateId_data (y m d : Int) (hy : 0 ≤ y) :
    (dateId y m d).data =
      natDigits y.toNat ++ '-' :: ((pad2 (m + 1)).data ++ '-' :: (pad2 d).data) := by
  unfold dateId jsIntToString
  rw [if_neg (by omega)]
  simp [string_data_append]

theorem dateId_canonical (y m d : Int) (hy1 : 1000 ≤ y) (hy2 : y ≤ 9999)
    (hm1 : 0 ≤ m) (hm2 : m ≤ 11) (hd1 : 1 ≤ d) (hd2 : d ≤ 31) :
    isCanonicalDayId (dateId y m d) = true := by
  obtain ⟨p, q, hpq, hp, hq⟩ := pad2_two (m + 1) (by omega) (by omega)
  obtain ⟨r, s, hrs, hr, hs⟩ := pad2_two d hd1 (by omega)
  have h4 := natDigits_four y.toNat (by omega) (by omega)
  have d1 := digitChar_isDigit (y.toNat / 10 / 10 / 10) (by omega)
  have d2 := digitChar_isDigit (y.toNat / 10 / 10 % 10) (by omega)
  have d3 := digitChar_isDigit (y.toNat / 10 % 10) (by omega)
  have d4 := digitChar_isDigit (y.toNat % 10) (by omega)
  unfold isCanonicalDayId
  rw [dateId_data y m d (by omega), h4, hpq, hrs]
  simp [d1, d2, d3, d4, hp, hq, hr, hs]

/-- C10: for any displayed year in 1000..9999 and valid month, every
non-filler day cell's `data-date` identifier is in canonical zero-padded
`YYYY-MM-DD` form (four year digits, dash, two month digits for
`month + 1`, dash, two day digits) — the exact glossary format that is
handed to `onDateSelect` and tested for entry membership. -/
theorem spec_C10_canonical_ids (year month : Int) (e : List String) (hl : Bool)
    (t : JSDate) (ds : String) (n : Int) (it he : Bool)
    (hy1 : 1000 ≤ year) (hy2 : year ≤ 9999) (hm1 : 0 ≤ month) (hm2 : month ≤ 11)
    (hmem : Cell.day ds n it he ∈ renderGrid year month e hl t) :
    isCanonicalDayId ds = true := by
  unfold renderGrid at hmem
  rcases List.mem_append.mp hmem with h | h
  · exact absurd (List.eq_of_mem_replicate h) (by simp)
  · obtain ⟨i, hi, heq⟩ := List.mem_map.mp h
    have hilt : i < ((normDate year (month + 1) 0).day).toNat := List.mem_range.mp hi
    rw [normDate_day0 year month hm1 hm2] at hilt
    have hilt2 : i < (monthLen (isLeapYear year) month).toNat := hilt
    have h31 : (i : Int) + 1 ≤ 31 := by
      have := monthLen_le31 (isLeapYear year) month
      omega
    cases heq
    exact dateId_canonical year month _ hy1 hy2 hm1 hm2 (by omega) h31

/-- Witness for C10: the day-15 cell of January 2024 carries the
canonical identifier `2024-01-15`. -/
theorem spec_C10_witness :
    Cell.day "2024-01-15" 15 false false ∈ renderGrid 2024 0 [] true ⟨2026, 9, 11⟩
    ∧ isCanonicalDayId "2024-01-15" = true :=
  ⟨by decide,
   spec_C10_canonical_ids 2024 0 [] true ⟨2026, 9, 11⟩ "2024-01-15" 15 false false
     (by norm_num) (by norm_num) (by norm_num) (by norm_num) (by decide)⟩
